import Mathlib

/-
Shallow embedding of the streak / XP / goal-progress engine of
`src/streamlit_app.py` (a single-file Streamlit habit-tracking app).

Modelling conventions.

* Calendar dates are day ordinals (`Nat`), as Python's `date.toordinal()`
  would give; `today` is part of the state and is advanced by an explicit
  `midnight` step (the source reads the clock via `date.today()`).
* Python integers are modelled as `Int` for the profile counters that the
  source mutates with `+=` / `-=` (`xp`, `streak`, `streak_shield`), so
  non-negativity is a provable invariant rather than a typing artifact.
  Minutes come from `st.number_input("Add minutes", 0, 180, 5)` followed by
  `int(mins)`, hence are non-negative and are modelled as `Nat`.
* Streamlit re-executes the whole script on every user interaction while
  `st.session_state` persists for the browser-tab session.  One user
  interaction is therefore one `script_run`: the module-level
  `maybe_break_streak()` call (source line 231) followed by the page handler
  that the interaction drives.  `page_home` additionally reports whether the
  celebration block fired during that render.
* `page_home` computes `pct = min(int(logged/ss.goal_minutes*100), 100)`
  with Python float division.  For every divisor reachable in the app
  (45, 60 or 90) and every `logged < divisor` the float expression
  `int(logged/g*100)` equals the exact `100*logged // g` (checked
  exhaustively over that finite range), and for `logged ≥ divisor` both the
  float expression and the exact one are capped to 100 by the outer `min`,
  so exact natural division is a faithful model of line 146.
-/

namespace CatPrep

/-- Source line 49: `GOALS = {"Light": 45, "Regular": 60, "Intense": 90}`;
the radio button at onboarding offers exactly these three keys. -/
inductive GoalChoice
  | light
  | regular
  | intense
deriving DecidableEq

/-- The minutes value attached to each onboarding goal choice. -/
def GOALS : GoalChoice → Nat
  | .light => 45
  | .regular => 60
  | .intense => 90

/-- Source line 50. -/
def XP_PER_MIN : Nat := 1

/-- Source line 51. -/
def MEAL_BONUS : Nat := 5

/-- Source line 52: length in minutes of the timer session on the Study
page. -/
def SESSION_LENGTH : Nat := 10

/-- The `ss.profile` dictionary created at onboarding (source lines
111-116). -/
structure Profile where
  name : String
  streak : Int
  xp : Int
  last_active : Nat
deriving DecidableEq

/-- One record of `ss.study_log` (source line 166). -/
structure StudyEntry where
  date : Nat
  minutes : Nat
deriving DecidableEq

/-- One record of `ss.meal_log` (source line 194). -/
structure MealEntry where
  date : Nat
  item : String
  cal : Nat
  protein : Nat
  carbs : Nat
  fat : Nat
deriving DecidableEq

/-- The engine-relevant part of `st.session_state` (source lines 63-73)
together with the environment clock `today`. -/
structure AppState where
  profile : Profile
  study_log : List StudyEntry
  meal_log : List MealEntry
  goal_minutes : Nat
  celebrated : Bool
  streak_shield : Int
  today : Nat
deriving DecidableEq

/-- `minutes_today` (source lines 82-83): sum of minutes over study entries
dated today. -/
def minutes_today (s : AppState) : Nat :=
  ((s.study_log.filter (fun e => e.date = s.today)).map (fun e => e.minutes)).sum

/-- `award_xp` (source lines 85-86). -/
def award_xp (s : AppState) (x : Int) : AppState :=
  { s with profile := { s.profile with xp := s.profile.xp + x } }

/-- `bump_streak` (source lines 88-92): no-op when `last_active` is already
today, otherwise increment the streak and stamp `last_active = today`. -/
def bump_streak (s : AppState) : AppState :=
  if s.profile.last_active = s.today then s
  else
    { s with
      profile :=
        { s.profile with
          streak := s.profile.streak + 1
          last_active := s.today } }

/-- `maybe_break_streak` (source lines 94-101): if `last_active` is more
than one day before today, consume a shield when one is available,
otherwise reset the streak to 0. -/
def maybe_break_streak (s : AppState) : AppState :=
  if s.profile.last_active < s.today - 1 then
    if s.streak_shield > 0 then
      { s with streak_shield := s.streak_shield - 1 }
    else
      { s with profile := { s.profile with streak := 0 } }
  else s

/-- The percentage shown by `page_home` (source line 146):
`min(int(logged/ss.goal_minutes*100), 100)`, modelled with exact natural
division as justified in the header comment. -/
def goal_pct (s : AppState) : Nat :=
  min (100 * minutes_today s / s.goal_minutes) 100

/-- The celebration block of `page_home` (source lines 142-156): if the
percentage is 100 and `ss.celebrated` is still false, fire the confetti and
set `ss.celebrated = True`.  Returns the updated state and whether the
celebration fired during this render. -/
def page_home (s : AppState) : AppState × Bool :=
  if goal_pct s = 100 ∧ s.celebrated = false then
    ({ s with celebrated := true }, true)
  else
    (s, false)

/-- The Save branch of `page_study` (source lines 164-169), which is also
the shape of the timer branch (lines 171-181, with `mins = SESSION_LENGTH`):
guarded by `mins > 0`, append a study entry dated today, award
`mins * XP_PER_MIN` XP, bump the streak. -/
def page_study_save (s : AppState) (mins : Nat) : AppState :=
  if mins > 0 then
    bump_streak
      (award_xp
        { s with study_log := s.study_log ++ [{ date := s.today, minutes := mins }] }
        ((mins * XP_PER_MIN : Nat) : Int))
  else s

/-- The Add branch of `page_meals` (source lines 184-198): guarded by a
non-empty item, append the meal entry, award the flat `MEAL_BONUS`, bump
the streak. -/
def page_meals_add (s : AppState) (item : String) (cal protein carbs fat : Nat) : AppState :=
  if item ≠ "" then
    bump_streak
      (award_xp
        { s with
          meal_log :=
            s.meal_log ++
              [{ date := s.today, item := item, cal := cal, protein := protein,
                 carbs := carbs, fat := fat }] }
        ((MEAL_BONUS : Nat) : Int))
  else s

/-- The page handler driven by one user interaction.  `nav` covers every
interaction with no engine effect: sidebar navigation, rendering the Path
or Stats pages, or a button press whose guard fails. -/
inductive Action
  | home
  | study (mins : Nat)
  | meal (item : String) (cal protein carbs fat : Nat)
  | nav
deriving DecidableEq

/-- One Streamlit script re-run, triggered by one user interaction: the
module-level `maybe_break_streak()` (source line 231) followed by the page
handler.  The Bool reports whether the celebration fired. -/
def script_run (s : AppState) (a : Action) : AppState × Bool :=
  match a with
  | .home => page_home (maybe_break_streak s)
  | .study m => (page_study_save (maybe_break_streak s) m, false)
  | .meal item c p cb f => (page_meals_add (maybe_break_streak s) item c p cb f, false)
  | .nav => (maybe_break_streak s, false)

/-- A session event: either a user interaction (one script re-run) or the
clock crossing midnight. -/
inductive Step
  | act (a : Action)
  | midnight
deriving DecidableEq

/-- Apply one session event. -/
def step (s : AppState) : Step → AppState × Bool
  | .act a => script_run s a
  | .midnight => ({ s with today := s.today + 1 }, false)

/-- The state just after the onboarding form is submitted (source lines
63-73 and 105-118): fresh profile with `streak = 0`, `xp = 0` and
`last_active = today().isoformat()`, the chosen goal minutes, one streak
shield, celebration flag clear, empty logs. -/
def init_state (name : String) (c : GoalChoice) (d : Nat) : AppState :=
  { profile := { name := name, streak := 0, xp := 0, last_active := d }
    study_log := []
    meal_log := []
    goal_minutes := GOALS c
    celebrated := false
    streak_shield := 1
    today := d }

/-- Run a session trace. -/
def run (s : AppState) : List Step → AppState
  | [] => s
  | e :: tr => run (step s e).1 tr

/-- Count how many times the celebration fires along a trace. -/
def runFires (s : AppState) : List Step → Nat
  | [] => 0
  | e :: tr => (if (step s e).2 then 1 else 0) + runFires (step s e).1 tr

/-- Run a sequence of user interactions with no intervening midnight, i.e.
all performed on the same calendar day. -/
def runActions (s : AppState) : List Action → AppState
  | [] => s
  | a :: rest => runActions (script_run s a).1 rest

/-- The session states reachable after onboarding. -/
inductive Reachable : AppState → Prop
  | init (name : String) (c : GoalChoice) (d : Nat) : Reachable (init_state name c d)
  | next {s : AppState} (e : Step) : Reachable s → Reachable (step s e).1

/-- The spec's `minutesLoggedOn(day)`, stated in the spec's own terms for
comparison with the source-derived `minutes_today`: sum of `minutes` over
all study entries with `date == day`. -/
def spec_minutesLoggedOn (log : List StudyEntry) (day : Nat) : Nat :=
  ((log.filter (fun e => e.date = day)).map (fun e => e.minutes)).sum

/-- The spec's `goalProgressPercent(day)`, stated in the spec's own terms:
`min(100, floor(100 * minutesLoggedOn(day) / daily_target_minutes))`. -/
def spec_goalProgressPercent (log : List StudyEntry) (target : Nat) (day : Nat) : Nat :=
  min 100 (100 * spec_minutesLoggedOn log day / target)

/-- A concrete state with a three-day gap and a shield available. -/
def gapState : AppState :=
  { profile := { name := "A", streak := 5, xp := 40, last_active := 10 }
    study_log := []
    meal_log := []
    goal_minutes := 60
    celebrated := false
    streak_shield := 1
    today := 13 }

/-- A concrete state whose `last_active` is exactly one day before today. -/
def dayAfterState : AppState :=
  { profile := { name := "B", streak := 2, xp := 30, last_active := 4 }
    study_log := [{ date := 4, minutes := 30 }]
    meal_log := []
    goal_minutes := 45
    celebrated := false
    streak_shield := 1
    today := 5 }

/-- Onboarding on day 0, one study action on day 1, then three midnights:
the session resumes on day 4 with `last_active = 1`, a two-day gap. -/
def preGapTrace : List Step :=
  [Step.midnight, Step.act (Action.study 10), Step.midnight, Step.midnight, Step.midnight]

/-- Meet the 60-minute goal on day 0 and render the home page. -/
def celebDayOne : List Step := [Step.act (Action.study 60), Step.act Action.home]

/-- Proof apparatus for the at-most-one-increment-per-day bound: the streak
plus 1 exactly when a qualifying action today could still increment it. -/
def streakPotential (s : AppState) : Int :=
  s.profile.streak + (if s.profile.last_active = s.today then 0 else 1)

/- Frame lemmas: which `session_state` fields each source function can
touch. -/

theorem mbs_cases (s : AppState) :
    maybe_break_streak s = s ∨
      maybe_break_streak s = { s with streak_shield := s.streak_shield - 1 } ∨
        maybe_break_streak s = { s with profile := { s.profile with streak := 0 } } := by
  unfold maybe_break_streak
  split
  · split
    · exact Or.inr (Or.inl rfl)
    · exact Or.inr (Or.inr rfl)
  · exact Or.inl rfl

@[simp] theorem mbs_today (s : AppState) : (maybe_break_streak s).today = s.today := by
  rcases mbs_cases s with h | h | h <;> rw [h]

@[simp] theorem mbs_celebrated (s : AppState) :
    (maybe_break_streak s).celebrated = s.celebrated := by
  rcases mbs_cases s with h | h | h <;> rw [h]

@[simp] theorem mbs_xp (s : AppState) : (maybe_break_streak s).profile.xp = s.profile.xp := by
  rcases mbs_cases s with h | h | h <;> rw [h]

@[simp] theorem mbs_last_active (s : AppState) :
    (maybe_break_streak s).profile.last_active = s.profile.last_active := by
  rcases mbs_cases s with h | h | h <;> rw [h]

@[simp] theorem mbs_study_log (s : AppState) :
    (maybe_break_streak s).study_log = s.study_log := by
  rcases mbs_cases s with h | h | h <;> rw [h]

@[simp] theorem mbs_meal_log (s : AppState) :
    (maybe_break_streak s).meal_log = s.meal_log := by
  rcases mbs_cases s with h | h | h <;> rw [h]

@[simp] theorem mbs_goal_minutes (s : AppState) :
    (maybe_break_streak s).goal_minutes = s.goal_minutes := by
  rcases mbs_cases s with h | h | h <;> rw [h]

theorem mbs_no_gap (s : AppState) (h : ¬ s.profile.last_active < s.today - 1) :
    maybe_break_streak s = s := by
  unfold maybe_break_streak
  rw [if_neg h]

theorem bump_cases (s : AppState) :
    bump_streak s = s ∨
      bump_streak s =
        { s with
          profile :=
            { s.profile with streak := s.profile.streak + 1, last_active := s.today } } := by
  unfold bump_streak
  split
  · exact Or.inl rfl
  · exact Or.inr rfl

@[simp] theorem bump_today (s : AppState) : (bump_streak s).today = s.today := by
  rcases bump_cases s with h | h <;> rw [h]

@[simp] theorem bump_celebrated (s : AppState) :
    (bump_streak s).celebrated = s.celebrated := by
  rcases bump_cases s with h | h <;> rw [h]

@[simp] theorem bump_xp (s : AppState) : (bump_streak s).profile.xp = s.profile.xp := by
  rcases bump_cases s with h | h <;> rw [h]

@[simp] theorem bump_study_log (s : AppState) : (bump_streak s).study_log = s.study_log := by
  rcases bump_cases s with h | h <;> rw [h]

@[simp] theorem bump_meal_log (s : AppState) : (bump_streak s).meal_log = s.meal_log := by
  rcases bump_cases s with h | h <;> rw [h]

@[simp] theorem bump_goal_minutes (s : AppState) :
    (bump_streak s).goal_minutes = s.goal_minutes := by
  rcases bump_cases s with h | h <;> rw [h]

@[simp] theorem bump_shield (s : AppState) :
    (bump_streak s).streak_shield = s.streak_shield := by
  rcases bump_cases s with h | h <;> rw [h]

theorem bump_same_day (s : AppState) (h : s.profile.last_active = s.today) :
    bump_streak s = s := by
  unfold bump_streak
  rw [if_pos h]

@[simp] theorem award_today (s : AppState) (x : Int) : (award_xp s x).today = s.today := rfl

@[simp] theorem award_celebrated (s : AppState) (x : Int) :
    (award_xp s x).celebrated = s.celebrated := rfl

@[simp] theorem award_streak (s : AppState) (x : Int) :
    (award_xp s x).profile.streak = s.profile.streak := rfl

@[simp] theorem award_last_active (s : AppState) (x : Int) :
    (award_xp s x).profile.last_active = s.profile.last_active := rfl

@[simp] theorem award_study_log (s : AppState) (x : Int) :
    (award_xp s x).study_log = s.study_log := rfl

@[simp] theorem award_meal_log (s : AppState) (x : Int) :
    (award_xp s x).meal_log = s.meal_log := rfl

@[simp] theorem award_goal_minutes (s : AppState) (x : Int) :
    (award_xp s x).goal_minutes = s.goal_minutes := rfl

@[simp] theorem award_shield (s : AppState) (x : Int) :
    (award_xp s x).streak_shield = s.streak_shield := rfl

@[simp] theorem award_xp_value (s : AppState) (x : Int) :
    (award_xp s x).profile.xp = s.profile.xp + x := rfl

theorem home_cases (s : AppState) :
    page_home s = ({ s with celebrated := true }, true) ∨ page_home s = (s, false) := by
  unfold page_home
  split
  · exact Or.inl rfl
  · exact Or.inr rfl

@[simp] theorem home_profile (s : AppState) : (page_home s).1.profile = s.profile := by
  rcases home_cases s with h | h <;> rw [h]

@[simp] theorem home_study_log (s : AppState) : (page_home s).1.study_log = s.study_log := by
  rcases home_cases s with h | h <;> rw [h]

@[simp] theorem home_meal_log (s : AppState) : (page_home s).1.meal_log = s.meal_log := by
  rcases home_cases s with h | h <;> rw [h]

@[simp] theorem home_goal_minutes (s : AppState) :
    (page_home s).1.goal_minutes = s.goal_minutes := by
  rcases home_cases s with h | h <;> rw [h]

@[simp] theorem home_shield (s : AppState) :
    (page_home s).1.streak_shield = s.streak_shield := by
  rcases home_cases s with h | h <;> rw [h]

@[simp] theorem home_today (s : AppState) : (page_home s).1.today = s.today := by
  rcases home_cases s with h | h <;> rw [h]

@[simp] theorem save_today (s : AppState) (m : Nat) :
    (page_study_save s m).today = s.today := by
  unfold page_study_save
  split <;> simp

@[simp] theorem save_celebrated (s : AppState) (m : Nat) :
    (page_study_save s m).celebrated = s.celebrated := by
  unfold page_study_save
  split <;> simp

@[simp] theorem save_goal_minutes (s : AppState) (m : Nat) :
    (page_study_save s m).goal_minutes = s.goal_minutes := by
  unfold page_study_save
  split <;> simp

@[simp] theorem save_shield (s : AppState) (m : Nat) :
    (page_study_save s m).streak_shield = s.streak_shield := by
  unfold page_study_save
  split <;> simp

@[simp] theorem save_meal_log (s : AppState) (m : Nat) :
    (page_study_save s m).meal_log = s.meal_log := by
  unfold page_study_save
  split <;> simp

@[simp] theorem meal_today (s : AppState) (item : String) (cal protein carbs fat : Nat) :
    (page_meals_add s item cal protein carbs fat).today = s.today := by
  unfold page_meals_add
  split <;> simp

@[simp] theorem meal_celebrated (s : AppState) (item : String) (cal protein carbs fat : Nat) :
    (page_meals_add s item cal protein carbs fat).celebrated = s.celebrated := by
  unfold page_meals_add
  split <;> simp

@[simp] theorem meal_goal_minutes (s : AppState) (item : String) (cal protein carbs fat : Nat) :
    (page_meals_add s item cal protein carbs fat).goal_minutes = s.goal_minutes := by
  unfold page_meals_add
  split <;> simp

@[simp] theorem meal_shield (s : AppState) (item : String) (cal protein carbs fat : Nat) :
    (page_meals_add s item cal protein carbs fat).streak_shield = s.streak_shield := by
  unfold page_meals_add
  split <;> simp

@[simp] theorem meal_study_log (s : AppState) (item : String) (cal protein carbs fat : Nat) :
    (page_meals_add s item cal protein carbs fat).study_log = s.study_log := by
  unfold page_meals_add
  split <;> simp

@[simp] theorem script_run_today (s : AppState) (a : Action) :
    (script_run s a).1.today = s.today := by
  cases a <;> simp [script_run]

@[simp] theorem script_run_goal_minutes (s : AppState) (a : Action) :
    (script_run s a).1.goal_minutes = s.goal_minutes := by
  cases a <;> simp [script_run]

@[simp] theorem step_goal_minutes (s : AppState) (e : Step) :
    (step s e).1.goal_minutes = s.goal_minutes := by
  cases e <;> simp [step]

/-- C1: for any profile state with `last_active` more than one day before
today, one invocation of `maybe_break_streak` leaves `last_active`
unchanged in both branches; if the shield count is positive it decrements
the shield by exactly 1 and leaves the streak unchanged; otherwise it
resets the streak to 0 (leaving the shield where it was). -/
theorem maybe_break_streak_gap_behavior (s : AppState)
    (h : s.profile.last_active < s.today - 1) :
    (maybe_break_streak s).profile.last_active = s.profile.last_active ∧
    (s.streak_shield > 0 →
      (maybe_break_streak s).streak_shield = s.streak_shield - 1 ∧
      (maybe_break_streak s).profile.streak = s.profile.streak) ∧
    (¬ s.streak_shield > 0 →
      (maybe_break_streak s).profile.streak = 0 ∧
      (maybe_break_streak s).streak_shield = s.streak_shield) := by
  unfold maybe_break_streak
  rw [if_pos h]
  by_cases hs : s.streak_shield > 0
  · rw [if_pos hs]
    exact ⟨rfl, fun _ => ⟨rfl, rfl⟩, fun hc => absurd hs hc⟩
  · rw [if_neg hs]
    exact ⟨rfl, fun hc => absurd hc hs, fun _ => ⟨rfl, rfl⟩⟩

/-- Witness for C1 at a concrete gap state. -/
theorem maybe_break_streak_gap_behavior_witness :
    gapState.profile.last_active < gapState.today - 1 ∧
    ((maybe_break_streak gapState).profile.last_active = gapState.profile.last_active ∧
      (gapState.streak_shield > 0 →
        (maybe_break_streak gapState).streak_shield = gapState.streak_shield - 1 ∧
        (maybe_break_streak gapState).profile.streak = gapState.profile.streak) ∧
      (¬ gapState.streak_shield > 0 →
        (maybe_break_streak gapState).profile.streak = 0 ∧
        (maybe_break_streak gapState).streak_shield = gapState.streak_shield)) :=
  ⟨by decide, maybe_break_streak_gap_behavior gapState (by decide)⟩

/-- C2: contrary to the claim, the gap check is re-executed on every user
interaction, because `maybe_break_streak()` sits at module level of a
script that Streamlit re-runs per interaction.  Concretely: onboard on day
0, study on day 1 (streak 1), let three midnights pass; the first
interaction of the resumed session consumes the shield and keeps the
streak at 1, but the very next interaction — mere navigation, not a
recording — re-runs the gap check, finds the shield exhausted and resets
the streak to 0. -/
theorem gap_check_reruns_each_interaction :
    (run (init_state "A" GoalChoice.regular 0)
        (preGapTrace ++ [Step.act Action.nav])).profile.streak = 1 ∧
    (run (init_state "A" GoalChoice.regular 0)
        (preGapTrace ++ [Step.act Action.nav])).streak_shield = 0 ∧
    (run (init_state "A" GoalChoice.regular 0)
        (preGapTrace ++ [Step.act Action.nav, Step.act Action.nav])).profile.streak = 0 := by
  decide

/-- C3 counterexample: meet the goal and celebrate on day 0; after midnight
`celebrated` is still true (the claim says the flag is reset to false when
the calendar day changes), and on day 1, although the goal is met again
(percentage 100) and the home page is rendered, the celebration fires zero
times that day rather than exactly once. -/
theorem celebrated_survives_day_change :
    runFires (init_state "A" GoalChoice.regular 0) celebDayOne = 1 ∧
    (run (init_state "A" GoalChoice.regular 0) (celebDayOne ++ [Step.midnight])).celebrated = true ∧
    goal_pct (run (init_state "A" GoalChoice.regular 0)
        (celebDayOne ++ [Step.midnight, Step.act (Action.study 60)])) = 100 ∧
    runFires (run (init_state "A" GoalChoice.regular 0) (celebDayOne ++ [Step.midnight]))
        [Step.act (Action.study 60), Step.act Action.home] = 0 := by
  decide

/-- C4 counterexample: onboarding initializes `last_active` to the current
day, so the first-ever qualifying action, performed on the onboarding day,
leaves the streak at 0 — not 1 as the claim states. -/
theorem first_action_on_onboarding_day_streak_zero :
    ((script_run (init_state "A" GoalChoice.regular 0) (Action.study 10)).1).profile.streak = 0 ∧
    ¬ ((script_run (init_state "A" GoalChoice.regular 0) (Action.study 10)).1).profile.streak = 1 := by
  decide

/-- C4 amended: whenever `last_active` is exactly one day before today,
`bump_streak` increments the streak by exactly 1 and sets `last_active` to
today.  (A first-ever action on the onboarding day itself leaves the
streak at 0, because onboarding sets `last_active` to today rather than
leaving it absent; the streak first becomes 1 on an action one day
later.) -/
theorem bump_streak_advances (s : AppState)
    (h : s.profile.last_active + 1 = s.today) :
    (bump_streak s).profile.streak = s.profile.streak + 1 ∧
    (bump_streak s).profile.last_active = s.today := by
  unfold bump_streak
  rw [if_neg (by omega)]
  exact ⟨rfl, rfl⟩

/-- Witness for the amended C4 at a concrete next-day state. -/
theorem bump_streak_advances_witness :
    dayAfterState.profile.last_active + 1 = dayAfterState.today ∧
    ((bump_streak dayAfterState).profile.streak = dayAfterState.profile.streak + 1 ∧
      (bump_streak dayAfterState).profile.last_active = dayAfterState.today) :=
  ⟨by decide, bump_streak_advances dayAfterState (by decide)⟩

/-- C7: the percentage computed by the home page equals the spec formula
`min(100, floor(100 * minutesLoggedOn(today) / daily_target_minutes))`,
the source's `minutes_today` coincides with the spec's `minutesLoggedOn`
evaluated at today, and the result is at most 100 (being a `Nat`, it is
also at least 0); both queries are pure functions of the state. -/
theorem goal_pct_matches_spec (s : AppState) :
    goal_pct s = spec_goalProgressPercent s.study_log s.goal_minutes s.today ∧
    minutes_today s = spec_minutesLoggedOn s.study_log s.today ∧
    goal_pct s ≤ 100 := by
  refine ⟨?_, rfl, min_le_right _ _⟩
  unfold goal_pct spec_goalProgressPercent spec_minutesLoggedOn minutes_today
  exact Nat.min_comm _ _

/- Celebration-gate lemmas. -/

theorem page_home_of_celebrated (s : AppState) (h : s.celebrated = true) :
    page_home s = (s, false) := by
  unfold page_home
  rw [if_neg]
  simp [h]

theorem page_home_fires (s : AppState) (h1 : goal_pct s = 100) (h2 : s.celebrated = false) :
    page_home s = ({ s with celebrated := true }, true) := by
  unfold page_home
  rw [if_pos ⟨h1, h2⟩]

theorem step_preserves_celebrated (s : AppState) (e : Step) (h : s.celebrated = true) :
    (step s e).1.celebrated = true ∧ (step s e).2 = false := by
  cases e with
  | midnight => exact ⟨h, rfl⟩
  | act a =>
    cases a with
    | home =>
      have hm : (maybe_break_streak s).celebrated = true := by simp [h]
      simp [step, script_run, page_home_of_celebrated _ hm, hm, h]
    | study m => simp [step, script_run, h]
    | meal item c p cb f => simp [step, script_run, h]
    | nav => simp [step, script_run, h]

theorem step_fire_sets_celebrated (s : AppState) (e : Step) (h : (step s e).2 = true) :
    (step s e).1.celebrated = true := by
  cases e with
  | midnight => simp [step] at h
  | act a =>
    cases a with
    | home =>
      rcases home_cases (maybe_break_streak s) with hc | hc
      · simp [step, script_run, hc]
      · simp [step, script_run, hc] at h
    | study m => simp [step, script_run] at h
    | meal item c p cb f => simp [step, script_run] at h
    | nav => simp [step, script_run] at h

theorem runFires_zero_of_celebrated (s : AppState) (tr : List Step)
    (h : s.celebrated = true) : runFires s tr = 0 := by
  induction tr generalizing s with
  | nil => rfl
  | cons e tr ih =>
    have hp := step_preserves_celebrated s e h
    simp [runFires, hp.2, ih _ hp.1]

theorem runFires_le_one (s : AppState) (tr : List Step) : runFires s tr ≤ 1 := by
  induction tr generalizing s with
  | nil => simp [runFires]
  | cons e tr ih =>
    by_cases hf : (step s e).2 = true
    · have hc := step_fire_sets_celebrated s e hf
      simp [runFires, hf, runFires_zero_of_celebrated _ tr hc]
    · simp only [runFires]
      rw [if_neg hf]
      simpa using ih (step s e).1

/-- C3 amended: `celebrated` is set the first time the home page is
rendered with the percentage at 100 while the flag is still clear, the
flag is never cleared again for the rest of the session (there is no
day-change reset in the source), and consequently along any
post-onboarding trace — across any number of calendar days — the
celebration fires at most once per session. -/
theorem celebration_at_most_once_per_session
    (name : String) (c : GoalChoice) (d : Nat) :
    (∀ s : AppState, goal_pct s = 100 → s.celebrated = false →
      page_home s = ({ s with celebrated := true }, true)) ∧
    (∀ (s : AppState) (e : Step), s.celebrated = true → (step s e).1.celebrated = true) ∧
    (∀ tr : List Step, runFires (init_state name c d) tr ≤ 1) :=
  ⟨page_home_fires,
    fun s e h => (step_preserves_celebrated s e h).1,
    fun tr => runFires_le_one (init_state name c d) tr⟩

/-- Witness for the amended C3: after studying 60 minutes on day 0 the home
render at 100% with a clear flag fires the celebration and sets the
flag. -/
theorem celebration_at_most_once_per_session_witness :
    goal_pct (run (init_state "A" GoalChoice.regular 0) [Step.act (Action.study 60)]) = 100 ∧
    (run (init_state "A" GoalChoice.regular 0) [Step.act (Action.study 60)]).celebrated = false ∧
    page_home (run (init_state "A" GoalChoice.regular 0) [Step.act (Action.study 60)]) =
      ({ run (init_state "A" GoalChoice.regular 0) [Step.act (Action.study 60)] with
          celebrated := true }, true) :=
  ⟨by decide, by decide,
    (celebration_at_most_once_per_session "A" GoalChoice.regular 0).1
      (run (init_state "A" GoalChoice.regular 0) [Step.act (Action.study 60)])
      (by decide) (by decide)⟩

/- Streak-potential lemmas for the at-most-one-increment-per-day bound. -/

theorem streakPotential_congr (s1 s2 : AppState)
    (h1 : s1.profile.streak = s2.profile.streak)
    (h2 : s1.profile.last_active = s2.profile.last_active)
    (h3 : s1.today = s2.today) : streakPotential s1 = streakPotential s2 := by
  unfold streakPotential
  rw [h1, h2, h3]

theorem mbs_pot (s : AppState) (h : 0 ≤ s.profile.streak) :
    0 ≤ (maybe_break_streak s).profile.streak ∧
      streakPotential (maybe_break_streak s) ≤ streakPotential s := by
  rcases mbs_cases s with hc | hc | hc <;> rw [hc]
  · exact ⟨h, le_refl _⟩
  · exact ⟨h, le_refl _⟩
  · refine ⟨le_refl 0, ?_⟩
    simp only [streakPotential]
    split <;> omega

theorem bump_pot (s : AppState) (h : 0 ≤ s.profile.streak) :
    0 ≤ (bump_streak s).profile.streak ∧
      streakPotential (bump_streak s) ≤ streakPotential s := by
  by_cases hd : s.profile.last_active = s.today
  · rw [bump_same_day s hd]
    exact ⟨h, le_refl _⟩
  · unfold bump_streak
    rw [if_neg hd]
    refine ⟨?_, ?_⟩ <;> (simp [streakPotential, hd]; try omega)

theorem home_pot (s : AppState) :
    (page_home s).1.profile.streak = s.profile.streak ∧
      streakPotential (page_home s).1 = streakPotential s := by
  refine ⟨by simp, streakPotential_congr _ _ (by simp) (by simp) (by simp)⟩

theorem save_pot (s : AppState) (m : Nat) (h : 0 ≤ s.profile.streak) :
    0 ≤ (page_study_save s m).profile.streak ∧
      streakPotential (page_study_save s m) ≤ streakPotential s := by
  unfold page_study_save
  split
  · have key : ∀ t : AppState, 0 ≤ t.profile.streak → streakPotential t = streakPotential s →
        0 ≤ (bump_streak t).profile.streak ∧ streakPotential (bump_streak t) ≤ streakPotential s := by
      intro t ht he
      have hb := bump_pot t ht
      exact ⟨hb.1, he ▸ hb.2⟩
    exact key _ (by simpa using h) (streakPotential_congr _ _ (by simp) (by simp) (by simp))
  · exact ⟨h, le_refl _⟩

theorem mealAdd_pot (s : AppState) (item : String) (cal protein carbs fat : Nat)
    (h : 0 ≤ s.profile.streak) :
    0 ≤ (page_meals_add s item cal protein carbs fat).profile.streak ∧
      streakPotential (page_meals_add s item cal protein carbs fat) ≤ streakPotential s := by
  unfold page_meals_add
  split
  · have key : ∀ t : AppState, 0 ≤ t.profile.streak → streakPotential t = streakPotential s →
        0 ≤ (bump_streak t).profile.streak ∧ streakPotential (bump_streak t) ≤ streakPotential s := by
      intro t ht he
      have hb := bump_pot t ht
      exact ⟨hb.1, he ▸ hb.2⟩
    exact key _ (by simpa using h) (streakPotential_congr _ _ (by simp) (by simp) (by simp))
  · exact ⟨h, le_refl _⟩

theorem script_run_pot (s : AppState) (a : Action) (h : 0 ≤ s.profile.streak) :
    0 ≤ (script_run s a).1.profile.streak ∧
      streakPotential (script_run s a).1 ≤ streakPotential s := by
  have hm := mbs_pot s h
  cases a with
  | home =>
    have hh := home_pot (maybe_break_streak s)
    exact ⟨hh.1 ▸ hm.1, le_trans (le_of_eq hh.2) hm.2⟩
  | study m =>
    have hs := save_pot (maybe_break_streak s) m hm.1
    exact ⟨hs.1, le_trans hs.2 hm.2⟩
  | meal item c p cb f =>
    have hs := mealAdd_pot (maybe_break_streak s) item c p cb f hm.1
    exact ⟨hs.1, le_trans hs.2 hm.2⟩
  | nav => exact hm

theorem runActions_pot (s : AppState) (acts : List Action) (h : 0 ≤ s.profile.streak) :
    0 ≤ (runActions s acts).profile.streak ∧
      streakPotential (runActions s acts) ≤ streakPotential s := by
  induction acts generalizing s with
  | nil => exact ⟨h, le_refl _⟩
  | cons a rest ih =>
    have h1 := script_run_pot s a h
    have h2 := ih (script_run s a).1 h1.1
    exact ⟨h2.1, le_trans h2.2 h1.2⟩

/-- C5: over any same-day sequence of interactions (each one a script
re-run driving a study save, a meal add, a home render or plain
navigation), the streak increases by at most 1 in total; and once
`last_active` equals today, any further interaction leaves both the streak
and `last_active` unchanged. -/
theorem same_day_streak_bound (s : AppState) (acts : List Action) (a : Action)
    (h0 : 0 ≤ s.profile.streak) :
    (runActions s acts).profile.streak ≤ s.profile.streak + 1 ∧
    (s.profile.last_active = s.today →
      (script_run s a).1.profile.streak = s.profile.streak ∧
      (script_run s a).1.profile.last_active = s.profile.last_active) := by
  constructor
  · have hp := runActions_pot s acts h0
    have h1 : (runActions s acts).profile.streak ≤ streakPotential (runActions s acts) := by
      unfold streakPotential
      split <;> omega
    have h2 : streakPotential s ≤ s.profile.streak + 1 := by
      unfold streakPotential
      split <;> omega
    have h3 := hp.2
    omega
  · intro hd
    have hm : maybe_break_streak s = s := mbs_no_gap s (by omega)
    cases a with
    | home => simp [script_run, hm]
    | study m =>
      simp only [script_run, hm]
      unfold page_study_save
      split
      · rw [bump_same_day _ (by simp [hd])]
        exact ⟨rfl, rfl⟩
      · exact ⟨rfl, rfl⟩
    | meal item c p cb f =>
      simp only [script_run, hm]
      unfold page_meals_add
      split
      · rw [bump_same_day _ (by simp [hd])]
        exact ⟨rfl, rfl⟩
      · exact ⟨rfl, rfl⟩
    | nav => simp [script_run, hm]

/-- Witness for C5: three same-day interactions after onboarding bump the
streak at most once, and an interaction while `last_active` is already
today changes nothing. -/
theorem same_day_streak_bound_witness :
    0 ≤ (init_state "C" GoalChoice.light 3).profile.streak ∧
    ((runActions (init_state "C" GoalChoice.light 3)
          [Action.study 5, Action.study 7, Action.meal "egg" 100 10 1 5]).profile.streak ≤
        (init_state "C" GoalChoice.light 3).profile.streak + 1 ∧
      ((init_state "C" GoalChoice.light 3).profile.last_active =
          (init_state "C" GoalChoice.light 3).today →
        (script_run (init_state "C" GoalChoice.light 3) (Action.study 2)).1.profile.streak =
            (init_state "C" GoalChoice.light 3).profile.streak ∧
          (script_run (init_state "C" GoalChoice.light 3) (Action.study 2)).1.profile.last_active =
            (init_state "C" GoalChoice.light 3).profile.last_active)) :=
  ⟨by decide,
    same_day_streak_bound (init_state "C" GoalChoice.light 3)
      [Action.study 5, Action.study 7, Action.meal "egg" 100 10 1 5] (Action.study 2) (by decide)⟩

/- XP accounting. -/

theorem step_xp (s : AppState) (e : Step)
    (h : s.profile.xp =
        ((s.study_log.map fun en => (en.minutes : Int)).sum + 5 * (s.meal_log.length : Int))) :
    (step s e).1.profile.xp =
      (((step s e).1.study_log.map fun en => (en.minutes : Int)).sum +
        5 * ((step s e).1.meal_log.length : Int)) := by
  cases e with
  | midnight => simpa [step] using h
  | act a =>
    cases a with
    | home => simpa [step, script_run] using h
    | nav => simpa [step, script_run] using h
    | study m =>
      simp only [step, script_run]
      unfold page_study_save
      split
      · simp [XP_PER_MIN, List.sum_append]
        omega
      · simpa using h
    | meal item c p cb f =>
      simp only [step, script_run]
      unfold page_meals_add
      split
      · simp [MEAL_BONUS]
        omega
      · simpa using h

theorem run_xp (s : AppState) (tr : List Step)
    (h : s.profile.xp =
        ((s.study_log.map fun en => (en.minutes : Int)).sum + 5 * (s.meal_log.length : Int))) :
    (run s tr).profile.xp =
      (((run s tr).study_log.map fun en => (en.minutes : Int)).sum +
        5 * ((run s tr).meal_log.length : Int)) := by
  induction tr generalizing s with
  | nil => exact h
  | cons e tr ih => exact ih _ (step_xp s e h)

/-- C6: along any post-onboarding trace, XP equals the sum of minutes over
all study entries (1 XP per minute) plus 5 per meal entry; in particular
study minutes 20 and 30 plus two meals yield exactly 60 XP. -/
theorem xp_equals_study_sum_plus_meal_bonus
    (name : String) (c : GoalChoice) (d : Nat) (tr : List Step) :
    (run (init_state name c d) tr).profile.xp =
      (((run (init_state name c d) tr).study_log.map fun en => (en.minutes : Int)).sum +
        5 * ((run (init_state name c d) tr).meal_log.length : Int)) ∧
    (run (init_state "A" GoalChoice.regular 0)
        [Step.act (Action.study 20), Step.act (Action.study 30),
          Step.act (Action.meal "dal" 200 12 30 4),
          Step.act (Action.meal "rice" 250 5 50 1)]).profile.xp = 60 :=
  ⟨run_xp _ tr (by simp [init_state]), by decide⟩

/- Goal-progress monotonicity. -/

theorem minutes_today_save (s : AppState) (m : Nat) (hm : 0 < m) :
    minutes_today (page_study_save s m) = minutes_today s + m := by
  unfold page_study_save
  rw [if_pos hm]
  unfold minutes_today
  simp [List.filter_append]

/-- C8: recording one more positive-minutes study entry for today through
the study-save handler never decreases the displayed percentage, and once
the percentage is 100 it stays 100. -/
theorem goal_pct_monotone_saturating (s : AppState) (m : Nat) (hm : 0 < m) :
    goal_pct s ≤ goal_pct (page_study_save s m) ∧
    (goal_pct s = 100 → goal_pct (page_study_save s m) = 100) := by
  have hmt := minutes_today_save s m hm
  have hg : (page_study_save s m).goal_minutes = s.goal_minutes := by simp
  have hdiv : 100 * minutes_today s / s.goal_minutes ≤
      100 * (minutes_today s + m) / s.goal_minutes :=
    Nat.div_le_div_right (mul_le_mul_left' (Nat.le_add_right _ _) 100)
  constructor
  · unfold goal_pct
    rw [hmt, hg]
    exact min_le_min hdiv (le_refl _)
  · intro h100
    unfold goal_pct at h100 ⊢
    rw [hmt, hg]
    have h1 : 100 ≤ 100 * minutes_today s / s.goal_minutes := by
      by_contra hlt
      push_neg at hlt
      rw [min_eq_left (le_of_lt hlt)] at h100
      omega
    rw [min_eq_right (le_trans h1 hdiv)]

/-- Witness for C8 at a concrete state and entry. -/
theorem goal_pct_monotone_saturating_witness :
    0 < 5 ∧
    (goal_pct dayAfterState ≤ goal_pct (page_study_save dayAfterState 5) ∧
      (goal_pct dayAfterState = 100 → goal_pct (page_study_save dayAfterState 5) = 100)) :=
  ⟨by decide, goal_pct_monotone_saturating dayAfterState 5 (by decide)⟩

/-- C9: along every reachable session state the daily target is one of 45,
60 or 90 — hence strictly positive, so the division in the percentage
formula never divides by zero — and no session event ever changes it after
onboarding. -/
theorem daily_target_always_positive :
    (∀ s : AppState, Reachable s →
      (s.goal_minutes = 45 ∨ s.goal_minutes = 60 ∨ s.goal_minutes = 90) ∧
        0 < s.goal_minutes) ∧
    ∀ (s : AppState) (e : Step), (step s e).1.goal_minutes = s.goal_minutes := by
  refine ⟨?_, step_goal_minutes⟩
  intro s hs
  induction hs with
  | init name c d => cases c <;> simp [init_state, GOALS]
  | next e hs ih =>
    rw [step_goal_minutes]
    exact ih

/-- Witness for C9 at the just-onboarded state. -/
theorem daily_target_always_positive_witness :
    Reachable (init_state "A" GoalChoice.light 0) ∧
    0 < (init_state "A" GoalChoice.light 0).goal_minutes :=
  ⟨Reachable.init "A" GoalChoice.light 0,
    (daily_target_always_positive.1 _ (Reachable.init "A" GoalChoice.light 0)).2⟩

/- Streak-shield lemmas. -/

theorem mbs_shield_cases (s : AppState) :
    (maybe_break_streak s).streak_shield = s.streak_shield ∨
      (0 < s.streak_shield ∧ (maybe_break_streak s).streak_shield = s.streak_shield - 1) := by
  unfold maybe_break_streak
  split
  · split
    · rename_i hs
      exact Or.inr ⟨hs, rfl⟩
    · exact Or.inl rfl
  · exact Or.inl rfl

theorem script_run_shield (s : AppState) (a : Action) :
    (script_run s a).1.streak_shield = (maybe_break_streak s).streak_shield := by
  cases a <;> simp [script_run]

theorem step_shield_le (s : AppState) (e : Step) :
    (step s e).1.streak_shield ≤ s.streak_shield := by
  cases e with
  | midnight => exact le_refl _
  | act a =>
    show (script_run s a).1.streak_shield ≤ s.streak_shield
    rw [script_run_shield]
    rcases mbs_shield_cases s with h | h
    · exact le_of_eq h
    · rw [h.2]
      omega

/-- C10: the shield starts at 1 at onboarding; in every reachable session
state it lies in [0, 1]; no session event ever increases it; every page
handler leaves it exactly where the gap check left it (the gap check is
the only operation that changes it); and the gap check either leaves it
unchanged or decrements it by 1, the latter only when it is strictly
positive — so it never goes negative. -/
theorem streak_shield_bounds :
    (∀ (name : String) (c : GoalChoice) (d : Nat), (init_state name c d).streak_shield = 1) ∧
    (∀ s : AppState, Reachable s → 0 ≤ s.streak_shield ∧ s.streak_shield ≤ 1) ∧
    (∀ (s : AppState) (e : Step), (step s e).1.streak_shield ≤ s.streak_shield) ∧
    (∀ (s : AppState) (a : Action),
      (script_run s a).1.streak_shield = (maybe_break_streak s).streak_shield) ∧
    ∀ s : AppState, (maybe_break_streak s).streak_shield = s.streak_shield ∨
      (0 < s.streak_shield ∧ (maybe_break_streak s).streak_shield = s.streak_shield - 1) := by
  refine ⟨fun name c d => rfl, ?_, step_shield_le, script_run_shield, mbs_shield_cases⟩
  intro s hs
  induction hs with
  | init name c d =>
    constructor <;> simp [init_state]
  | next e hs ih =>
    rename_i t
    refine ⟨?_, le_trans (step_shield_le t e) ih.2⟩
    cases e with
    | midnight => exact ih.1
    | act a =>
      show 0 ≤ (script_run t a).1.streak_shield
      rw [script_run_shield]
      rcases mbs_shield_cases t with h | h
      · rw [h]
        exact ih.1
      · rw [h.2]
        omega

/-- Witness for C10 at the just-onboarded state. -/
theorem streak_shield_bounds_witness :
    Reachable (init_state "A" GoalChoice.regular 0) ∧
    (0 ≤ (init_state "A" GoalChoice.regular 0).streak_shield ∧
      (init_state "A" GoalChoice.regular 0).streak_shield ≤ 1) :=
  ⟨Reachable.init "A" GoalChoice.regular 0,
    streak_shield_bounds.2.1 _ (Reachable.init "A" GoalChoice.regular 0)⟩

end CatPrep
